import Mathlib

/-!
Shallow embedding of `drivers/video/android/graphics_fbdev.c`: a minimal
framebuffer display backend offering either hardware double buffering (two
buffers inside device video memory, swapped with a device command) or a
software shadow buffer (an independently allocated buffer copied into device
memory on every flip), behind the four operations init / flip / blank / exit.

Modelling conventions:
* Byte memory is one total function from addresses (`Nat`) to byte values.
* The kernel heap (`kmalloc`) is a bump allocator handing out blocks starting
  at a caller-supplied base address; live blocks are tracked as an
  (address, size) list so that `kfree` is observable.
* Device commands (`fb_ioctl`) are modelled by their integer return codes,
  supplied as parameters.  A failing command increments the error log
  (the `printk` calls) and leaves the device-side mirror state (`dev_vi`,
  `power_blanked`) unchanged; the in-memory bookkeeping proceeds regardless,
  exactly as in the C source.
* The `vi.yres * fi.line_length * 2` comparison is 32-bit unsigned
  arithmetic in C, hence the explicit reduction modulo `2 ^ 32`.
* `RECOVERY_BGRA` is a compile-time flag; the flip operation takes it as a
  boolean parameter.
-/

namespace GraphicsFbdev

/-- One drawable surface (`GRSurface` in the C source): geometry plus the
address of its byte storage (`data` holds the pointer value). -/
structure GRSurface where
  width : Nat
  height : Nat
  row_bytes : Nat
  pixel_bytes : Nat
  data : Nat
deriving Repr, DecidableEq, Inhabited

/-- The all-zero surface descriptor (value of a zero-initialised C static). -/
def zeroSurface : GRSurface :=
  { width := 0, height := 0, row_bytes := 0, pixel_bytes := 0, data := 0 }

/-- The fields of `struct fb_var_screeninfo` this driver reads or writes.
The colour-channel offset/length fields are only printed by the C code and
are omitted. -/
structure FbVarScreeninfo where
  xres : Nat
  yres : Nat
  yres_virtual : Nat
  yoffset : Nat
  bits_per_pixel : Nat
deriving Repr, DecidableEq, Inhabited

/-- The fields of `struct fb_fix_screeninfo` this driver reads:
`line_length` (row stride), `smem_len` (total video memory size) and
`mmio_start` (base address of the raw video memory region). -/
structure FbFixScreeninfo where
  line_length : Nat
  smem_len : Nat
  mmio_start : Nat
deriving Repr, DecidableEq, Inhabited

/-- The value of the C global `gr_draw`: a null pointer, a pointer into the
static two-element array `gr_framebuffer` (index 0 or 1), or a pointer to a
heap-allocated descriptor (software strategy), remembering the descriptor's
own allocation address. -/
inductive DrawPtr where
  | null : DrawPtr
  | fb : Nat → DrawPtr
  | heap : Nat → GRSurface → DrawPtr
deriving Repr, DecidableEq, Inhabited

/-- Failure modes of `fbdev_init` (the two `return NULL` sites). -/
inductive InitError where
  | noDevice : InitError
  | allocFailed : InitError
deriving Repr, DecidableEq, Inhabited

/-- The process-wide state of the backend: the C statics plus the byte
memory, the live heap blocks, the device-side mirror of the committed screen
info and power state, and a count of logged errors. -/
structure FbdevState where
  gr_framebuffer : GRSurface × GRSurface
  double_buffered : Bool
  gr_draw : DrawPtr
  displayed_buffer : Nat
  vi : FbVarScreeninfo
  dev_vi : FbVarScreeninfo
  power_blanked : Bool
  mem : Nat → Nat
  allocated : List (Nat × Nat)
  errlog : Nat
deriving Inhabited

/-- `gr_framebuffer[i]` (any index other than 0 reads entry 1, which is the
only way the C code ever indexes past 0). -/
def FbdevState.buf (s : FbdevState) (i : Nat) : GRSurface :=
  if i = 0 then s.gr_framebuffer.1 else s.gr_framebuffer.2

/-- Dereference the `gr_draw` pointer in a given state. -/
def FbdevState.drawSurface (s : FbdevState) : Option GRSurface :=
  match s.gr_draw with
  | DrawPtr.null => none
  | DrawPtr.fb i => some (s.buf i)
  | DrawPtr.heap _ d => some d

/-- Store one byte. -/
def writeByte (m : Nat → Nat) (a v : Nat) : Nat → Nat :=
  fun x => if x = a then v else m x

/-- `memset(dst, v, n)`. -/
def memsetBytes (m : Nat → Nat) (dst v n : Nat) : Nat → Nat :=
  fun a => if dst ≤ a ∧ a < dst + n then v else m a

/-- `memcpy(dst, src, n)` for non-overlapping regions (the only way the C
source uses it: device memory and the heap shadow buffer are disjoint). -/
def memcpyBytes (m : Nat → Nat) (dst src n : Nat) : Nat → Nat :=
  fun a => if dst ≤ a ∧ a < dst + n then m (src + (a - dst)) else m a

/-- One iteration of the `RECOVERY_BGRA` copy loop at byte index `idx`: four
sequential byte stores
`dst[idx] = src[idx+2]; dst[idx+1] = src[idx+1]; dst[idx+2] = src[idx];
dst[idx+3] = src[idx+3]`, each reading the memory produced by the stores
before it, exactly as the C statements execute. -/
def pixelStep (dst src idx : Nat) (m : Nat → Nat) : Nat → Nat :=
  let m1 := writeByte m (dst + idx) (m (src + idx + 2))
  let m2 := writeByte m1 (dst + idx + 1) (m1 (src + idx + 1))
  let m3 := writeByte m2 (dst + idx + 2) (m2 (src + idx))
  writeByte m3 (dst + idx + 3) (m3 (src + idx + 3))

/-- The first `k` iterations of the `RECOVERY_BGRA` loop (iteration `i`
works at byte index `4 * i`; iteration 0 runs first). -/
def swapCopyIter (dst src : Nat) (m : Nat → Nat) : Nat → Nat → Nat
  | 0 => m
  | k + 1 => pixelStep dst src (4 * k) (swapCopyIter dst src m k)

/-- `sizeof(GRSurface)`: four ints plus one pointer. -/
def sizeofGRSurface : Nat := 24

/-- `kfree(a)`: drop the live block at address `a`. -/
def kfreeBlk (l : List (Nat × Nat)) (a : Nat) : List (Nat × Nat) :=
  l.filter (fun p => p.1 != a)

/-- Log bookkeeping for a device command: a negative return code is logged
with `printk` and counted, nothing else happens to it. -/
def logIf (ret : Int) (e : Nat) : Nat :=
  if ret < 0 then e + 1 else e

/-- `fbdev_blank`: issue `FBIOBLANK` with `FB_BLANK_POWERDOWN` (argument
true) or `FB_BLANK_UNBLANK` (false).  On success the device power state
follows the request; on failure the failure is logged and nothing else
happens — the function never reports failure to its caller. -/
def fbdev_blank (s : FbdevState) (blank : Bool) (ioctlRet : Int) : FbdevState :=
  if ioctlRet < 0 then { s with errlog := s.errlog + 1 }
  else { s with power_blanked := blank }

/-- `set_displayed_framebuffer(n)`: no-op unless `n ≤ 1` and double
buffering is active; otherwise update `vi` (virtual vertical resolution =
twice the buffer height, vertical offset = `n * height`, bits per pixel =
`pixel_bytes * 8`), push it with `FBIOPUT_VSCREENINFO` (on success the
device adopts it, on failure the failure is only logged), and record `n`
as the displayed buffer regardless of the command's outcome. -/
def set_displayed_framebuffer (s : FbdevState) (n : Nat) (ioctlRet : Int) :
    FbdevState :=
  if n > 1 ∨ s.double_buffered = false then s
  else
    let fb0 := s.gr_framebuffer.1
    let vi' := { s.vi with
      yres_virtual := fb0.height * 2
      yoffset := n * fb0.height
      bits_per_pixel := fb0.pixel_bytes * 8 }
    { s with
      vi := vi'
      dev_vi := if ioctlRet < 0 then s.dev_vi else vi'
      errlog := logIf ioctlRet s.errlog
      displayed_buffer := n }

/-- The environment `fbdev_init` runs in: how many framebuffer devices are
registered, the device's fixed and variable screen info as the two get
ioctls report them, the initial byte memory and device power state, the
bump-allocator base for `kmalloc` (first free heap address), whether the
shadow-buffer allocation succeeds, and the return codes of the three device
commands init can issue (`FBIOPUT_VSCREENINFO`, blank on, blank off). -/
structure InitEnv where
  numRegisteredFb : Nat
  fi : FbFixScreeninfo
  vi0 : FbVarScreeninfo
  mem0 : Nat → Nat
  power0 : Bool
  allocBase : Nat
  allocOk : Bool
  putRet : Int
  blankOnRet : Int
  blankOffRet : Int
deriving Inhabited

/-- `fbdev_init`: fail if no device is registered; otherwise zero the whole
raw video memory region, describe the primary buffer from the queried
geometry and zero its extent, then select the strategy: if
`vi.yres * fi.line_length * 2 <= fi.smem_len` (32-bit unsigned arithmetic),
hardware double buffering — buffer 1 is a copy of buffer 0 with its data
pointer advanced by `height * row_bytes`, and `gr_draw` points at buffer 1;
otherwise software shadow buffering — a heap descriptor copied from
buffer 0 whose data is a fresh heap block, failing with an allocation error
if that block cannot be allocated.  Either way the draw buffer's extent is
zeroed, buffer 0 is committed as displayed, and the device is blanked then
unblanked.  Returns the final state and the surface handed to the caller. -/
def fbdev_init (env : InitEnv) : Except InitError (FbdevState × GRSurface) :=
  if env.numRegisteredFb = 0 then Except.error InitError.noDevice
  else
    let bits := env.fi.mmio_start
    let mem1 := memsetBytes env.mem0 bits 0 env.fi.smem_len
    let fb0 : GRSurface :=
      { width := env.vi0.xres
        height := env.vi0.yres
        row_bytes := env.fi.line_length
        pixel_bytes := env.vi0.bits_per_pixel / 8
        data := bits }
    let mem2 := memsetBytes mem1 fb0.data 0 (fb0.height * fb0.row_bytes)
    if (env.vi0.yres * env.fi.line_length * 2) % 2 ^ 32 ≤ env.fi.smem_len then
      let fb1 : GRSurface := { fb0 with
        data := fb0.data + fb0.height * fb0.row_bytes }
      let s0 : FbdevState :=
        { gr_framebuffer := (fb0, fb1)
          double_buffered := true
          gr_draw := DrawPtr.fb 1
          displayed_buffer := 0
          vi := env.vi0
          dev_vi := env.vi0
          power_blanked := env.power0
          mem := memsetBytes mem2 fb1.data 0 (fb1.height * fb1.row_bytes)
          allocated := []
          errlog := 0 }
      let s1 := set_displayed_framebuffer s0 0 env.putRet
      let s2 := fbdev_blank s1 true env.blankOnRet
      let s3 := fbdev_blank s2 false env.blankOffRet
      Except.ok (s3, fb1)
    else
      if env.allocOk then
        let descAddr := env.allocBase
        let dataAddr := env.allocBase + sizeofGRSurface
        let draw : GRSurface := { fb0 with data := dataAddr }
        let s0 : FbdevState :=
          { gr_framebuffer := (fb0, zeroSurface)
            double_buffered := false
            gr_draw := DrawPtr.heap descAddr draw
            displayed_buffer := 0
            vi := env.vi0
            dev_vi := env.vi0
            power_blanked := env.power0
            mem := memsetBytes mem2 draw.data 0 (draw.height * draw.row_bytes)
            allocated :=
              [(descAddr, sizeofGRSurface),
               (dataAddr, draw.height * draw.row_bytes)]
            errlog := 0 }
        let s1 := set_displayed_framebuffer s0 0 env.putRet
        let s2 := fbdev_blank s1 true env.blankOnRet
        let s3 := fbdev_blank s2 false env.blankOffRet
        Except.ok (s3, draw)
      else Except.error InitError.allocFailed

/-- `fbdev_flip`: with double buffering, point `gr_draw` at the currently
displayed buffer and commit the other one with `set_displayed_framebuffer`;
without it, copy the shadow buffer's full extent into the primary
video-memory buffer, either byte for byte (`bgra = false`) or with the
`RECOVERY_BGRA` per-pixel first/third byte swap (`bgra = true`).  Returns
the new state together with the surface `gr_draw` points at. -/
def fbdev_flip (bgra : Bool) (s : FbdevState) (ioctlRet : Int) :
    FbdevState × Option GRSurface :=
  if s.double_buffered then
    let s1 := { s with gr_draw := DrawPtr.fb s.displayed_buffer }
    let s2 := set_displayed_framebuffer s1 (1 - s.displayed_buffer) ioctlRet
    (s2, s2.drawSurface)
  else
    match s.drawSurface with
    | none => (s, none)
    | some d =>
      let n := d.height * d.row_bytes
      let dst := s.gr_framebuffer.1.data
      let mem' :=
        if bgra then swapCopyIter dst d.data s.mem ((n + 3) / 4)
        else memcpyBytes s.mem dst d.data n
      ({ s with mem := mem' }, some d)

/-- `fbdev_exit`: under the software strategy free the shadow buffer's
storage and then its descriptor; under the hardware strategy free nothing.
Either way `gr_draw` ends up null. -/
def fbdev_exit (s : FbdevState) : FbdevState :=
  if s.double_buffered = false then
    match s.gr_draw with
    | DrawPtr.heap descAddr d =>
      { s with
        allocated := kfreeBlk (kfreeBlk s.allocated d.data) descAddr
        gr_draw := DrawPtr.null }
    | _ => { s with gr_draw := DrawPtr.null }
  else { s with gr_draw := DrawPtr.null }

/-- The state of a successful init (dummy default on failure). -/
def initStateOf (r : Except InitError (FbdevState × GRSurface)) : FbdevState :=
  match r with
  | Except.ok (s, _) => s
  | Except.error _ => default

/-- The surface a successful init returns (dummy default on failure). -/
def initSurfOf (r : Except InitError (FbdevState × GRSurface)) : GRSurface :=
  match r with
  | Except.ok (_, d) => d
  | Except.error _ => default

/-- The state left by `fbdev_init` in a given environment. -/
def initState (env : InitEnv) : FbdevState :=
  initStateOf (fbdev_init env)

/-- The surface returned by `fbdev_init` in a given environment. -/
def initSurf (env : InitEnv) : GRSurface :=
  initSurfOf (fbdev_init env)

/-- The primary buffer descriptor `gr_framebuffer[0]` as init builds it. -/
def initFb0 (env : InitEnv) : GRSurface :=
  { width := env.vi0.xres
    height := env.vi0.yres
    row_bytes := env.fi.line_length
    pixel_bytes := env.vi0.bits_per_pixel / 8
    data := env.fi.mmio_start }

/-- Buffer 1 under the hardware strategy: buffer 0's geometry with the data
pointer advanced by the buffer extent. -/
def hwSurf (env : InitEnv) : GRSurface :=
  { initFb0 env with
    data := env.fi.mmio_start + env.vi0.yres * env.fi.line_length }

/-- Memory after init's three zero-fills on the hardware path. -/
def hwMem (env : InitEnv) : Nat → Nat :=
  memsetBytes
    (memsetBytes
      (memsetBytes env.mem0 env.fi.mmio_start 0 env.fi.smem_len)
      env.fi.mmio_start 0 (env.vi0.yres * env.fi.line_length))
    (env.fi.mmio_start + env.vi0.yres * env.fi.line_length) 0
    (env.vi0.yres * env.fi.line_length)

/-- The hardware-path state just before the device commands of init. -/
def hwState0 (env : InitEnv) : FbdevState :=
  { gr_framebuffer := (initFb0 env, hwSurf env)
    double_buffered := true
    gr_draw := DrawPtr.fb 1
    displayed_buffer := 0
    vi := env.vi0
    dev_vi := env.vi0
    power_blanked := env.power0
    mem := hwMem env
    allocated := []
    errlog := 0 }

/-- The shadow surface under the software strategy: buffer 0's geometry
with freshly allocated backing storage. -/
def swSurf (env : InitEnv) : GRSurface :=
  { initFb0 env with data := env.allocBase + sizeofGRSurface }

/-- Memory after init's three zero-fills on the software path. -/
def swMem (env : InitEnv) : Nat → Nat :=
  memsetBytes
    (memsetBytes
      (memsetBytes env.mem0 env.fi.mmio_start 0 env.fi.smem_len)
      env.fi.mmio_start 0 (env.vi0.yres * env.fi.line_length))
    (env.allocBase + sizeofGRSurface) 0
    (env.vi0.yres * env.fi.line_length)

/-- The software-path state just before the device commands of init. -/
def swState0 (env : InitEnv) : FbdevState :=
  { gr_framebuffer := (initFb0 env, zeroSurface)
    double_buffered := false
    gr_draw := DrawPtr.heap env.allocBase (swSurf env)
    displayed_buffer := 0
    vi := env.vi0
    dev_vi := env.vi0
    power_blanked := env.power0
    mem := swMem env
    allocated :=
      [(env.allocBase, sizeofGRSurface),
       (env.allocBase + sizeofGRSurface, env.vi0.yres * env.fi.line_length)]
    errlog := 0 }

@[simp] theorem blank_gr_framebuffer (s : FbdevState) (b : Bool) (r : Int) :
    (fbdev_blank s b r).gr_framebuffer = s.gr_framebuffer := by
  unfold fbdev_blank; split <;> rfl

@[simp] theorem blank_double_buffered (s : FbdevState) (b : Bool) (r : Int) :
    (fbdev_blank s b r).double_buffered = s.double_buffered := by
  unfold fbdev_blank; split <;> rfl

@[simp] theorem blank_gr_draw (s : FbdevState) (b : Bool) (r : Int) :
    (fbdev_blank s b r).gr_draw = s.gr_draw := by
  unfold fbdev_blank; split <;> rfl

@[simp] theorem blank_displayed_buffer (s : FbdevState) (b : Bool) (r : Int) :
    (fbdev_blank s b r).displayed_buffer = s.displayed_buffer := by
  unfold fbdev_blank; split <;> rfl

@[simp] theorem blank_vi (s : FbdevState) (b : Bool) (r : Int) :
    (fbdev_blank s b r).vi = s.vi := by
  unfold fbdev_blank; split <;> rfl

@[simp] theorem blank_dev_vi (s : FbdevState) (b : Bool) (r : Int) :
    (fbdev_blank s b r).dev_vi = s.dev_vi := by
  unfold fbdev_blank; split <;> rfl

@[simp] theorem blank_mem (s : FbdevState) (b : Bool) (r : Int) :
    (fbdev_blank s b r).mem = s.mem := by
  unfold fbdev_blank; split <;> rfl

@[simp] theorem blank_allocated (s : FbdevState) (b : Bool) (r : Int) :
    (fbdev_blank s b r).allocated = s.allocated := by
  unfold fbdev_blank; split <;> rfl

@[simp] theorem sdf_gr_framebuffer (s : FbdevState) (n : Nat) (r : Int) :
    (set_displayed_framebuffer s n r).gr_framebuffer = s.gr_framebuffer := by
  unfold set_displayed_framebuffer; split <;> rfl

@[simp] theorem sdf_double_buffered (s : FbdevState) (n : Nat) (r : Int) :
    (set_displayed_framebuffer s n r).double_buffered = s.double_buffered := by
  unfold set_displayed_framebuffer; split <;> rfl

@[simp] theorem sdf_gr_draw (s : FbdevState) (n : Nat) (r : Int) :
    (set_displayed_framebuffer s n r).gr_draw = s.gr_draw := by
  unfold set_displayed_framebuffer; split <;> rfl

@[simp] theorem sdf_mem (s : FbdevState) (n : Nat) (r : Int) :
    (set_displayed_framebuffer s n r).mem = s.mem := by
  unfold set_displayed_framebuffer; split <;> rfl

@[simp] theorem sdf_allocated (s : FbdevState) (n : Nat) (r : Int) :
    (set_displayed_framebuffer s n r).allocated = s.allocated := by
  unfold set_displayed_framebuffer; split <;> rfl

@[simp] theorem sdf_power_blanked (s : FbdevState) (n : Nat) (r : Int) :
    (set_displayed_framebuffer s n r).power_blanked = s.power_blanked := by
  unfold set_displayed_framebuffer; split <;> rfl

theorem sdf_inactive (s : FbdevState) (n : Nat) (r : Int)
    (h : s.double_buffered = false) :
    set_displayed_framebuffer s n r = s := by
  unfold set_displayed_framebuffer
  rw [if_pos (Or.inr h)]

theorem sdf_active (s : FbdevState) (n : Nat) (r : Int)
    (hdb : s.double_buffered = true) (hn : n ≤ 1) :
    set_displayed_framebuffer s n r =
      { s with
        vi := { s.vi with
          yres_virtual := s.gr_framebuffer.1.height * 2
          yoffset := n * s.gr_framebuffer.1.height
          bits_per_pixel := s.gr_framebuffer.1.pixel_bytes * 8 }
        dev_vi := if r < 0 then s.dev_vi else
          { s.vi with
            yres_virtual := s.gr_framebuffer.1.height * 2
            yoffset := n * s.gr_framebuffer.1.height
            bits_per_pixel := s.gr_framebuffer.1.pixel_bytes * 8 }
        errlog := logIf r s.errlog
        displayed_buffer := n } := by
  unfold set_displayed_framebuffer
  rw [if_neg]
  intro hc
  rcases hc with hc | hc
  · omega
  · rw [hdb] at hc; exact absurd hc (by simp)

/-- Characterization of init on the hardware double-buffering path. -/
theorem fbdev_init_hw_eq (env : InitEnv)
    (hreg : ¬ env.numRegisteredFb = 0)
    (hde : (env.vi0.yres * env.fi.line_length * 2) % 2 ^ 32 ≤
      env.fi.smem_len) :
    fbdev_init env = Except.ok
      (fbdev_blank
        (fbdev_blank (set_displayed_framebuffer (hwState0 env) 0 env.putRet)
          true env.blankOnRet)
        false env.blankOffRet,
       hwSurf env) := by
  unfold fbdev_init
  rw [if_neg hreg, if_pos hde]
  rfl

/-- Characterization of init on the software shadow-buffer path (the
`set_displayed_framebuffer(0)` call is a no-op there). -/
theorem fbdev_init_sw_eq (env : InitEnv)
    (hreg : ¬ env.numRegisteredFb = 0)
    (hde : ¬ (env.vi0.yres * env.fi.line_length * 2) % 2 ^ 32 ≤
      env.fi.smem_len)
    (halloc : env.allocOk = true) :
    fbdev_init env = Except.ok
      (fbdev_blank
        (fbdev_blank (set_displayed_framebuffer (swState0 env) 0 env.putRet)
          true env.blankOnRet)
        false env.blankOffRet,
       swSurf env) := by
  unfold fbdev_init
  rw [if_neg hreg, if_neg hde, if_pos halloc]
  rfl

/-- Characterization of init when the software allocation fails. -/
theorem fbdev_init_swfail_eq (env : InitEnv)
    (hreg : ¬ env.numRegisteredFb = 0)
    (hde : ¬ (env.vi0.yres * env.fi.line_length * 2) % 2 ^ 32 ≤
      env.fi.smem_len)
    (halloc : env.allocOk = false) :
    fbdev_init env = Except.error InitError.allocFailed := by
  unfold fbdev_init
  rw [if_neg hreg, if_neg hde, if_neg]
  rw [halloc]
  exact (by simp)

theorem memsetBytes_in (m : Nat → Nat) (dst v n a : Nat)
    (h1 : dst ≤ a) (h2 : a < dst + n) :
    memsetBytes m dst v n a = v := by
  unfold memsetBytes
  rw [if_pos ⟨h1, h2⟩]

theorem memsetBytes_out (m : Nat → Nat) (dst v n a : Nat)
    (h : ¬ (dst ≤ a ∧ a < dst + n)) :
    memsetBytes m dst v n a = m a := by
  unfold memsetBytes
  rw [if_neg h]

theorem memsetBytes_zero_pres (m : Nat → Nat) (dst n a : Nat)
    (h : m a = 0) : memsetBytes m dst 0 n a = 0 := by
  unfold memsetBytes
  split
  · rfl
  · exact h

theorem pixelStep_frame (dst src idx : Nat) (m : Nat → Nat) (a : Nat)
    (h0 : a ≠ dst + idx) (h1 : a ≠ dst + idx + 1)
    (h2 : a ≠ dst + idx + 2) (h3 : a ≠ dst + idx + 3) :
    pixelStep dst src idx m a = m a := by
  simp only [pixelStep, writeByte]
  split_ifs <;> first | rfl | omega

theorem pixelStep_at0 (dst src idx : Nat) (m : Nat → Nat) :
    pixelStep dst src idx m (dst + idx) = m (src + idx + 2) := by
  simp only [pixelStep, writeByte]
  split_ifs <;> first | rfl | omega

theorem pixelStep_at1 (dst src idx : Nat) (m : Nat → Nat)
    (h : src + idx + 1 ≠ dst + idx) :
    pixelStep dst src idx m (dst + idx + 1) = m (src + idx + 1) := by
  simp only [pixelStep, writeByte]
  split_ifs <;> first | rfl | omega

theorem pixelStep_at2 (dst src idx : Nat) (m : Nat → Nat)
    (h0 : src + idx ≠ dst + idx) (h1 : src + idx ≠ dst + idx + 1) :
    pixelStep dst src idx m (dst + idx + 2) = m (src + idx) := by
  simp only [pixelStep, writeByte]
  split_ifs <;> first | rfl | omega

theorem pixelStep_at3 (dst src idx : Nat) (m : Nat → Nat)
    (h0 : src + idx + 3 ≠ dst + idx) (h1 : src + idx + 3 ≠ dst + idx + 1)
    (h2 : src + idx + 3 ≠ dst + idx + 2) :
    pixelStep dst src idx m (dst + idx + 3) = m (src + idx + 3) := by
  simp only [pixelStep, writeByte]
  split_ifs <;> first | rfl | omega

theorem swapCopyIter_frame (dst src : Nat) (m : Nat → Nat) (k : Nat)
    (a : Nat) (h : ∀ j, j < 4 * k → a ≠ dst + j) :
    swapCopyIter dst src m k a = m a := by
  induction k with
  | zero => rfl
  | succ k ih =>
    rw [swapCopyIter]
    rw [pixelStep_frame _ _ _ _ _
      (h (4 * k) (by omega))
      (by have := h (4 * k + 1) (by omega); omega)
      (by have := h (4 * k + 2) (by omega); omega)
      (by have := h (4 * k + 3) (by omega); omega)]
    exact ih (fun j hj => h j (by omega))

theorem swapCopyIter_values (dst src : Nat) (m : Nat → Nat) (k : Nat)
    (hdisj : ∀ i j, i < 4 * k → j < 4 * k → dst + i ≠ src + j) :
    ∀ p, p < k →
      swapCopyIter dst src m k (dst + 4 * p) = m (src + 4 * p + 2) ∧
      swapCopyIter dst src m k (dst + 4 * p + 1) = m (src + 4 * p + 1) ∧
      swapCopyIter dst src m k (dst + 4 * p + 2) = m (src + 4 * p) ∧
      swapCopyIter dst src m k (dst + 4 * p + 3) = m (src + 4 * p + 3) := by
  induction k with
  | zero => intro p hp; omega
  | succ k ih =>
    have ihk := ih (fun i j hi hj => hdisj i j (by omega) (by omega))
    intro p hp
    by_cases hpk : p < k
    · refine ⟨?_, ?_, ?_, ?_⟩ <;>
        rw [swapCopyIter,
          pixelStep_frame _ _ _ _ _ (by omega) (by omega) (by omega)
            (by omega)]
      · exact (ihk p hpk).1
      · exact (ihk p hpk).2.1
      · exact (ihk p hpk).2.2.1
      · exact (ihk p hpk).2.2.2
    · have hpe : p = k := by omega
      subst hpe
      have hsrc : ∀ j, j < 4 * p + 4 →
          swapCopyIter dst src m p (src + j) = m (src + j) := by
        intro j hj
        exact swapCopyIter_frame dst src m p (src + j)
          (fun i hi => by have := hdisj i j (by omega) (by omega); omega)
      refine ⟨?_, ?_, ?_, ?_⟩
      · rw [swapCopyIter, pixelStep_at0]
        exact hsrc (4 * p + 2) (by omega)
      · rw [swapCopyIter,
          pixelStep_at1 _ _ _ _
            (by have := hdisj (4 * p) (4 * p + 1) (by omega) (by omega)
                omega)]
        exact hsrc (4 * p + 1) (by omega)
      · rw [swapCopyIter,
          pixelStep_at2 _ _ _ _
            (by have := hdisj (4 * p) (4 * p) (by omega) (by omega)
                omega)
            (by have := hdisj (4 * p + 1) (4 * p) (by omega) (by omega)
                omega)]
        exact hsrc (4 * p) (by omega)
      · rw [swapCopyIter,
          pixelStep_at3 _ _ _ _
            (by have := hdisj (4 * p) (4 * p + 3) (by omega) (by omega)
                omega)
            (by have := hdisj (4 * p + 1) (4 * p + 3) (by omega) (by omega)
                omega)
            (by have := hdisj (4 * p + 2) (4 * p + 3) (by omega) (by omega)
                omega)]
        exact hsrc (4 * p + 3) (by omega)

theorem memcpyBytes_in (m : Nat → Nat) (dst src n a : Nat)
    (h1 : dst ≤ a) (h2 : a < dst + n) :
    memcpyBytes m dst src n a = m (src + (a - dst)) := by
  unfold memcpyBytes
  rw [if_pos ⟨h1, h2⟩]

theorem memcpyBytes_out (m : Nat → Nat) (dst src n a : Nat)
    (h : ¬ (dst ≤ a ∧ a < dst + n)) :
    memcpyBytes m dst src n a = m a := by
  unfold memcpyBytes
  rw [if_neg h]

/-- Whether init succeeded (the C caller's `gr_draw != NULL` test on the
returned pointer). -/
def initOk (r : Except InitError (FbdevState × GRSurface)) : Bool :=
  match r with
  | Except.ok _ => true
  | Except.error _ => false

/-- A successful init forces a registered framebuffer device. -/
theorem initOk_reg (env : InitEnv) (hok : initOk (fbdev_init env) = true) :
    ¬ env.numRegisteredFb = 0 := by
  intro h
  unfold fbdev_init at hok
  rw [if_pos h] at hok
  simp [initOk] at hok

/-- Behaviour of `fbdev_flip` under the hardware strategy. -/
theorem flip_hw (bgra : Bool) (s : FbdevState) (r : Int)
    (hdb : s.double_buffered = true) :
    fbdev_flip bgra s r =
      (set_displayed_framebuffer
        { s with gr_draw := DrawPtr.fb s.displayed_buffer }
        (1 - s.displayed_buffer) r,
       some (s.buf s.displayed_buffer)) := by
  unfold fbdev_flip
  rw [if_pos hdb]
  simp [FbdevState.drawSurface, FbdevState.buf]

/-- The state component of a hardware flip, fully evaluated. -/
theorem flip_hw_state (bgra : Bool) (s : FbdevState) (r : Int)
    (hdb : s.double_buffered = true) :
    (fbdev_flip bgra s r).1 =
      { s with
        gr_draw := DrawPtr.fb s.displayed_buffer
        vi := { s.vi with
          yres_virtual := s.gr_framebuffer.1.height * 2
          yoffset := (1 - s.displayed_buffer) * s.gr_framebuffer.1.height
          bits_per_pixel := s.gr_framebuffer.1.pixel_bytes * 8 }
        dev_vi := if r < 0 then s.dev_vi else
          { s.vi with
            yres_virtual := s.gr_framebuffer.1.height * 2
            yoffset := (1 - s.displayed_buffer) * s.gr_framebuffer.1.height
            bits_per_pixel := s.gr_framebuffer.1.pixel_bytes * 8 }
        errlog := logIf r s.errlog
        displayed_buffer := 1 - s.displayed_buffer } := by
  rw [flip_hw bgra s r hdb]
  rw [sdf_active { s with gr_draw := DrawPtr.fb s.displayed_buffer }
    (1 - s.displayed_buffer) r hdb (by omega)]

/-- The memory transformation of a software flip: the `RECOVERY_BGRA`
per-pixel swap loop or the plain `memcpy`, over `n` bytes. -/
def flipCopy (bgra : Bool) (dst src n : Nat) (m : Nat → Nat) : Nat → Nat :=
  if bgra then swapCopyIter dst src m ((n + 3) / 4)
  else memcpyBytes m dst src n

/-- Behaviour of `fbdev_flip` under the software strategy. -/
theorem flip_sw (bgra : Bool) (s : FbdevState) (r : Int) (a : Nat)
    (dr : GRSurface) (hdb : s.double_buffered = false)
    (hdraw : s.gr_draw = DrawPtr.heap a dr) :
    fbdev_flip bgra s r =
      ({ s with mem := flipCopy bgra s.gr_framebuffer.1.data dr.data (dr.height * dr.row_bytes) s.mem },
       some dr) := by
  unfold fbdev_flip
  rw [if_neg (by simp [hdb])]
  have hds : s.drawSurface = some dr := by
    simp [FbdevState.drawSurface, hdraw]
  rw [hds]
  rfl

/-- The conclusion of claim C1: init selects hardware double buffering
exactly when two buffers fit, and then the two descriptors share geometry,
buffer 1's data pointer sits `height * row_bytes` past buffer 0's, and the
caller receives buffer 1. -/
def c1Spec (env : InitEnv) : Prop :=
  ((initState env).double_buffered = true ↔
    env.vi0.yres * env.fi.line_length * 2 ≤ env.fi.smem_len) ∧
  ((initState env).double_buffered = true →
    ((initState env).buf 1).width = ((initState env).buf 0).width ∧
    ((initState env).buf 1).height = ((initState env).buf 0).height ∧
    ((initState env).buf 1).row_bytes = ((initState env).buf 0).row_bytes ∧
    ((initState env).buf 1).pixel_bytes =
      ((initState env).buf 0).pixel_bytes ∧
    ((initState env).buf 1).data = ((initState env).buf 0).data +
      ((initState env).buf 0).height * ((initState env).buf 0).row_bytes ∧
    initSurf env = (initState env).buf 1 ∧
    (initState env).gr_draw = DrawPtr.fb 1)

/-- C1: init selects hardware double buffering if and only if
`yres * line_length * 2 <= total video memory`; in that case the two buffer
descriptors have identical geometry, buffer 1's data pointer is exactly
`height * row_bytes` bytes after buffer 0's, and the Surface returned to
the caller is buffer 1.  (The product is computed in 32-bit unsigned
arithmetic, so a no-overflow bound on the geometry is assumed.) -/
theorem C1_double_buffer_selection (env : InitEnv)
    (hreg : env.numRegisteredFb ≠ 0)
    (hfit : env.vi0.yres * env.fi.line_length * 2 < 2 ^ 32)
    (hok : initOk (fbdev_init env) = true) :
    c1Spec env := by
  have hmod : (env.vi0.yres * env.fi.line_length * 2) % 2 ^ 32 =
      env.vi0.yres * env.fi.line_length * 2 := Nat.mod_eq_of_lt hfit
  by_cases hde : (env.vi0.yres * env.fi.line_length * 2) % 2 ^ 32 ≤
      env.fi.smem_len
  · have hstate : initState env =
        fbdev_blank (fbdev_blank
          (set_displayed_framebuffer (hwState0 env) 0 env.putRet)
          true env.blankOnRet) false env.blankOffRet := by
      unfold initState
      rw [fbdev_init_hw_eq env hreg hde]
      rfl
    have hsurf : initSurf env = hwSurf env := by
      unfold initSurf
      rw [fbdev_init_hw_eq env hreg hde]
      rfl
    unfold c1Spec
    rw [hstate, hsurf]
    constructor
    · simp only [blank_double_buffered, sdf_double_buffered, hwState0]
      rw [hmod] at hde
      simp [hde]
    · intro _
      simp [FbdevState.buf, hwState0, hwSurf, initFb0]
  · by_cases halloc : env.allocOk = true
    · have hstate : initState env =
          fbdev_blank (fbdev_blank
            (set_displayed_framebuffer (swState0 env) 0 env.putRet)
            true env.blankOnRet) false env.blankOffRet := by
        unfold initState
        rw [fbdev_init_sw_eq env hreg hde halloc]
        rfl
      unfold c1Spec
      rw [hstate]
      rw [hmod] at hde
      constructor
      · simp only [blank_double_buffered, sdf_double_buffered, swState0]
        simp [hde]
      · intro hdb
        exfalso
        simp only [blank_double_buffered, sdf_double_buffered,
          swState0] at hdb
        exact absurd hdb (by simp)
    · exfalso
      have halloc' : env.allocOk = false := by
        revert halloc; cases env.allocOk <;> simp
      rw [fbdev_init_swfail_eq env hreg hde halloc'] at hok
      simp [initOk] at hok

/-- The conclusion of claim C3: the returned draw surface is zero over its
full extent, and the raw device memory region is zero. -/
def c3Spec (env : InitEnv) : Prop :=
  (∀ o, o < (initSurf env).height * (initSurf env).row_bytes →
    (initState env).mem ((initSurf env).data + o) = 0) ∧
  (∀ a, env.fi.mmio_start ≤ a → a < env.fi.mmio_start + env.fi.smem_len →
    (initState env).mem a = 0)

/-- C3: after every successful init, under either strategy, the returned
draw Surface's backing bytes are all zero over its full
`height * row_bytes` extent, and the raw device memory region is
zero-filled (init clears it once before strategy-specific setup; all
later init writes are themselves zero-fills). -/
theorem C3_zero_initialised (env : InitEnv)
    (hok : initOk (fbdev_init env) = true) :
    c3Spec env := by
  have hreg := initOk_reg env hok
  by_cases hde : (env.vi0.yres * env.fi.line_length * 2) % 2 ^ 32 ≤
      env.fi.smem_len
  · have hstate : initState env =
        fbdev_blank (fbdev_blank
          (set_displayed_framebuffer (hwState0 env) 0 env.putRet)
          true env.blankOnRet) false env.blankOffRet := by
      unfold initState
      rw [fbdev_init_hw_eq env hreg hde]
      rfl
    have hsurf : initSurf env = hwSurf env := by
      unfold initSurf
      rw [fbdev_init_hw_eq env hreg hde]
      rfl
    unfold c3Spec
    rw [hstate, hsurf]
    simp only [blank_mem, sdf_mem, hwState0, hwSurf, initFb0, hwMem]
    constructor
    · intro o ho
      exact memsetBytes_in _ _ _ _ _ (by omega) (by omega)
    · intro a h1 h2
      apply memsetBytes_zero_pres
      apply memsetBytes_zero_pres
      exact memsetBytes_in _ _ _ _ _ h1 h2
  · by_cases halloc : env.allocOk = true
    · have hstate : initState env =
          fbdev_blank (fbdev_blank
            (set_displayed_framebuffer (swState0 env) 0 env.putRet)
            true env.blankOnRet) false env.blankOffRet := by
        unfold initState
        rw [fbdev_init_sw_eq env hreg hde halloc]
        rfl
      have hsurf : initSurf env = swSurf env := by
        unfold initSurf
        rw [fbdev_init_sw_eq env hreg hde halloc]
        rfl
      unfold c3Spec
      rw [hstate, hsurf]
      simp only [blank_mem, sdf_mem, swState0, swSurf, initFb0, swMem]
      constructor
      · intro o ho
        exact memsetBytes_in _ _ _ _ _ (by omega) (by omega)
      · intro a h1 h2
        apply memsetBytes_zero_pres
        apply memsetBytes_zero_pres
        exact memsetBytes_in _ _ _ _ _ h1 h2
    · exfalso
      have halloc' : env.allocOk = false := by
        revert halloc; cases env.allocOk <;> simp
      rw [fbdev_init_swfail_eq env hreg hde halloc'] at hok
      simp [initOk] at hok

/-- C4: if allocation of the software shadow buffer's backing storage
fails, init fails with an allocation error: no state and no surface are
surfaced to the caller. -/
theorem C4_alloc_failure (env : InitEnv)
    (hreg : env.numRegisteredFb ≠ 0)
    (hfit : env.vi0.yres * env.fi.line_length * 2 < 2 ^ 32)
    (hbig : env.fi.smem_len < env.vi0.yres * env.fi.line_length * 2)
    (halloc : env.allocOk = false) :
    fbdev_init env = Except.error InitError.allocFailed := by
  apply fbdev_init_swfail_eq env hreg _ halloc
  rw [Nat.mod_eq_of_lt hfit]
  omega

/-- The conclusion of claim C7: init succeeds with the software strategy;
the draw surface matches the primary buffer's geometry, its storage lies
entirely outside the device video memory region, and is a live heap
allocation. -/
def c7Spec (env : InitEnv) : Prop :=
  initOk (fbdev_init env) = true ∧
  (initState env).double_buffered = false ∧
  (initSurf env).width = ((initState env).buf 0).width ∧
  (initSurf env).height = ((initState env).buf 0).height ∧
  (initSurf env).row_bytes = ((initState env).buf 0).row_bytes ∧
  (initSurf env).pixel_bytes = ((initState env).buf 0).pixel_bytes ∧
  (∀ o, ¬ (env.fi.mmio_start ≤ (initSurf env).data + o ∧
    (initSurf env).data + o < env.fi.mmio_start + env.fi.smem_len)) ∧
  ((initSurf env).data,
    (initSurf env).height * (initSurf env).row_bytes) ∈
      (initState env).allocated

/-- C7: when the double-buffering inequality fails, init selects software
buffering and the returned draw Surface has the primary buffer's geometry
but freshly allocated backing storage that does not alias device video
memory (the heap sits above the device region). -/
theorem C7_software_buffer (env : InitEnv)
    (hreg : env.numRegisteredFb ≠ 0)
    (hfit : env.vi0.yres * env.fi.line_length * 2 < 2 ^ 32)
    (hbig : env.fi.smem_len < env.vi0.yres * env.fi.line_length * 2)
    (halloc : env.allocOk = true)
    (hheap : env.fi.mmio_start + env.fi.smem_len ≤ env.allocBase) :
    c7Spec env := by
  have hde : ¬ (env.vi0.yres * env.fi.line_length * 2) % 2 ^ 32 ≤
      env.fi.smem_len := by
    rw [Nat.mod_eq_of_lt hfit]
    omega
  have hstate : initState env =
      fbdev_blank (fbdev_blank
        (set_displayed_framebuffer (swState0 env) 0 env.putRet)
        true env.blankOnRet) false env.blankOffRet := by
    unfold initState
    rw [fbdev_init_sw_eq env hreg hde halloc]
    rfl
  have hsurf : initSurf env = swSurf env := by
    unfold initSurf
    rw [fbdev_init_sw_eq env hreg hde halloc]
    rfl
  unfold c7Spec
  rw [hstate, hsurf]
  refine ⟨?_, ?_, ?_, ?_, ?_, ?_, ?_, ?_⟩
  · rw [fbdev_init_sw_eq env hreg hde halloc]
    rfl
  · simp [swState0]
  · simp [FbdevState.buf, swState0, swSurf, initFb0]
  · simp [FbdevState.buf, swState0, swSurf, initFb0]
  · simp [FbdevState.buf, swState0, swSurf, initFb0]
  · simp [FbdevState.buf, swState0, swSurf, initFb0]
  · intro o
    simp only [swSurf, initFb0, sizeofGRSurface]
    omega
  · simp [swState0, swSurf, initFb0]

/-- The conclusion of claim C2: one hardware flip hands the caller the
previously displayed buffer, pushes the doubled virtual resolution, the
complementary vertical offset and the pixel depth to the device, and flips
the displayed index; two flips from index 0 run 0 -> 1 -> 0 with the draw
surface always the complement of the displayed one. -/
def c2Spec (bgra : Bool) (s : FbdevState) (r1 r2 : Int) : Prop :=
  (fbdev_flip bgra s r1).2 = some (s.buf s.displayed_buffer) ∧
  (fbdev_flip bgra s r1).1.gr_draw = DrawPtr.fb s.displayed_buffer ∧
  (fbdev_flip bgra s r1).1.vi.yres_virtual = (s.buf 0).height * 2 ∧
  (fbdev_flip bgra s r1).1.vi.yoffset =
    (1 - s.displayed_buffer) * (s.buf 0).height ∧
  (fbdev_flip bgra s r1).1.vi.bits_per_pixel = (s.buf 0).pixel_bytes * 8 ∧
  (fbdev_flip bgra s r1).1.displayed_buffer = 1 - s.displayed_buffer ∧
  (fbdev_flip bgra s r1).1.gr_draw =
    DrawPtr.fb (1 - (fbdev_flip bgra s r1).1.displayed_buffer) ∧
  (s.displayed_buffer = 0 →
    (fbdev_flip bgra s r1).1.displayed_buffer = 1 ∧
    (fbdev_flip bgra (fbdev_flip bgra s r1).1 r2).1.displayed_buffer = 0 ∧
    (fbdev_flip bgra (fbdev_flip bgra s r1).1 r2).2 = some (s.buf 1))

/-- C2: under the hardware strategy each flip sets the draw Surface to the
buffer at the pre-flip displayed index, issues a device command with
virtual vertical resolution `2 * height`, vertical offset
`(1 - displayed index) * height` and bits-per-pixel `pixel_bytes * 8`,
and complements the displayed index; over two flips from index 0 the
sequence is 0 -> 1 -> 0 and the draw Surface is always the complement of
the displayed buffer. -/
theorem C2_flip_alternation (bgra : Bool) (s : FbdevState) (r1 r2 : Int)
    (hdb : s.double_buffered = true) (hdi : s.displayed_buffer ≤ 1) :
    c2Spec bgra s r1 r2 := by
  have h1 := flip_hw bgra s r1 hdb
  have h1s := flip_hw_state bgra s r1 hdb
  have hdb' : (fbdev_flip bgra s r1).1.double_buffered = true := by
    rw [h1s]; exact hdb
  unfold c2Spec
  refine ⟨?_, ?_, ?_, ?_, ?_, ?_, ?_, ?_⟩
  · rw [h1]
  · rw [h1s]
  · rw [h1s]; simp [FbdevState.buf]
  · rw [h1s]; simp [FbdevState.buf]
  · rw [h1s]; simp [FbdevState.buf]
  · rw [h1s]
  · rw [h1s]
    show DrawPtr.fb s.displayed_buffer =
      DrawPtr.fb (1 - (1 - s.displayed_buffer))
    congr 1
    omega
  · intro h0
    have hd1 : (fbdev_flip bgra s r1).1.displayed_buffer = 1 := by
      rw [h1s]; simp [h0]
    refine ⟨hd1, ?_, ?_⟩
    · rw [flip_hw_state bgra _ r2 hdb', hd1]
    · rw [flip_hw bgra _ r2 hdb', hd1]
      simp [FbdevState.buf, h1s]

/-- The conclusion of claim C5: a direct-mode software flip returns the
unchanged draw reference and leaves device memory equal to the shadow
buffer's bytes over the full extent. -/
def c5Spec (s : FbdevState) (dr : GRSurface) (r : Int) : Prop :=
  (fbdev_flip false s r).2 = some dr ∧
  (fbdev_flip false s r).1.gr_draw = s.gr_draw ∧
  (∀ o, o < dr.height * dr.row_bytes →
    (fbdev_flip false s r).1.mem (s.gr_framebuffer.1.data + o) =
      s.mem (dr.data + o))

/-- C5: under the software strategy in direct copy mode, flip copies the
full `height * row_bytes` extent of the shadow buffer into the device's
primary buffer, afterwards device memory equals the shadow buffer's byte
pattern, and flip returns the same draw Surface reference as before. -/
theorem C5_software_flip_direct (s : FbdevState) (dr : GRSurface)
    (a : Nat) (r : Int) (hdb : s.double_buffered = false)
    (hdraw : s.gr_draw = DrawPtr.heap a dr) :
    c5Spec s dr r := by
  have hf := flip_sw false s r a dr hdb hdraw
  unfold c5Spec
  refine ⟨?_, ?_, ?_⟩
  · rw [hf]
  · rw [hf]
  · intro o ho
    rw [hf]
    show flipCopy false s.gr_framebuffer.1.data dr.data
      (dr.height * dr.row_bytes) s.mem (s.gr_framebuffer.1.data + o) = _
    unfold flipCopy
    rw [if_neg (by simp)]
    rw [memcpyBytes_in _ _ _ _ _ (by omega) (by omega)]
    congr 1
    omega

/-- The conclusion of claim C6: a swapped-channel software flip writes, for
every 4-byte pixel of the extent, the shadow pixel's bytes into device
memory with the first and third bytes exchanged. -/
def c6Spec (s : FbdevState) (dr : GRSurface) (r : Int) : Prop :=
  (fbdev_flip true s r).2 = some dr ∧
  ∀ p, 4 * p + 4 ≤ dr.height * dr.row_bytes →
    (fbdev_flip true s r).1.mem (s.gr_framebuffer.1.data + 4 * p) =
      s.mem (dr.data + 4 * p + 2) ∧
    (fbdev_flip true s r).1.mem (s.gr_framebuffer.1.data + 4 * p + 1) =
      s.mem (dr.data + 4 * p + 1) ∧
    (fbdev_flip true s r).1.mem (s.gr_framebuffer.1.data + 4 * p + 2) =
      s.mem (dr.data + 4 * p) ∧
    (fbdev_flip true s r).1.mem (s.gr_framebuffer.1.data + 4 * p + 3) =
      s.mem (dr.data + 4 * p + 3)

/-- C6: under the software strategy in swapped-channel mode, flip performs
a per-pixel 4-byte copy exchanging the first and third bytes of every
pixel: a shadow pixel (r,g,b,a) lands in device memory as (b,g,r,a) over
the full extent (4-byte pixels, with the shadow buffer and device memory
disjoint as init sets them up). -/
theorem C6_software_flip_bgra (s : FbdevState) (dr : GRSurface)
    (a : Nat) (r : Int) (hdb : s.double_buffered = false)
    (hdraw : s.gr_draw = DrawPtr.heap a dr)
    (hrow : dr.row_bytes % 4 = 0)
    (hdisj : s.gr_framebuffer.1.data + dr.height * dr.row_bytes ≤ dr.data ∨
      dr.data + dr.height * dr.row_bytes ≤ s.gr_framebuffer.1.data) :
    c6Spec s dr r := by
  have hf := flip_sw true s r a dr hdb hdraw
  obtain ⟨c, hc⟩ : 4 ∣ dr.height * dr.row_bytes :=
    Dvd.dvd.mul_left (Nat.dvd_of_mod_eq_zero hrow) dr.height
  unfold c6Spec
  constructor
  · rw [hf]
  · intro p hp
    have hdisjK : ∀ i j,
        i < 4 * ((dr.height * dr.row_bytes + 3) / 4) →
        j < 4 * ((dr.height * dr.row_bytes + 3) / 4) →
        s.gr_framebuffer.1.data + i ≠ dr.data + j := by
      intro i j hi hj
      rcases hdisj with h | h <;> omega
    have hv := swapCopyIter_values s.gr_framebuffer.1.data dr.data s.mem
      ((dr.height * dr.row_bytes + 3) / 4) hdisjK p (by omega)
    rw [hf]
    exact ⟨hv.1, hv.2.1, hv.2.2.1, hv.2.2.2⟩

/-- The conclusion of claim C8: a failing device command is only logged —
blank completes changing nothing but the log, and a failing geometry
commit in a hardware flip still advances the displayed index and returns
the new draw Surface, with the device-side screen info left stale. -/
def c8Spec (bgra b : Bool) (s : FbdevState) (r : Int) : Prop :=
  fbdev_blank s b r = { s with errlog := s.errlog + 1 } ∧
  (fbdev_flip bgra s r).1.displayed_buffer = 1 - s.displayed_buffer ∧
  (fbdev_flip bgra s r).2 = some (s.buf s.displayed_buffer) ∧
  (fbdev_flip bgra s r).1.dev_vi = s.dev_vi ∧
  (fbdev_flip bgra s r).1.errlog = s.errlog + 1

/-- C8: a device command failure during flip's geometry commit or during
blank is logged and never propagated: blank still completes (only the log
changes), and a hardware flip with a failing commit still updates the
displayed index and returns the new draw Surface. -/
theorem C8_command_failure_nonfatal (bgra b : Bool) (s : FbdevState)
    (r : Int) (hr : r < 0) (hdb : s.double_buffered = true) :
    c8Spec bgra b s r := by
  unfold c8Spec
  refine ⟨?_, ?_, ?_, ?_, ?_⟩
  · unfold fbdev_blank
    rw [if_pos hr]
  · rw [flip_hw_state bgra s r hdb]
  · rw [flip_hw bgra s r hdb]
  · rw [flip_hw_state bgra s r hdb]
    simp [hr]
  · rw [flip_hw_state bgra s r hdb]
    show logIf r s.errlog = s.errlog + 1
    unfold logIf
    rw [if_pos hr]

/-- `fbdev_exit` always nulls the draw pointer. -/
theorem exit_gr_draw (s : FbdevState) :
    (fbdev_exit s).gr_draw = DrawPtr.null := by
  unfold fbdev_exit
  split <;> (try split) <;> rfl

/-- `fbdev_exit` under the hardware strategy only clears the draw
pointer. -/
theorem exit_hw (s : FbdevState) (hdb : s.double_buffered = true) :
    fbdev_exit s = { s with gr_draw := DrawPtr.null } := by
  unfold fbdev_exit
  rw [if_neg (by simp [hdb])]

/-- `fbdev_exit` under the software strategy frees the data block, then
the descriptor block, and clears the draw pointer. -/
theorem exit_sw_heap (s : FbdevState) (a : Nat) (d : GRSurface)
    (hdb : s.double_buffered = false)
    (hdraw : s.gr_draw = DrawPtr.heap a d) :
    fbdev_exit s =
      { s with
        allocated := kfreeBlk (kfreeBlk s.allocated d.data) a
        gr_draw := DrawPtr.null } := by
  unfold fbdev_exit
  rw [if_pos hdb, hdraw]

/-- The conclusion of claim C9: after teardown the draw reference is null;
under the hardware strategy nothing else changes; under the software
strategy both heap blocks are released and memory, buffers and the rest of
the state are untouched. -/
def c9Spec (env : InitEnv) : Prop :=
  (fbdev_exit (initState env)).gr_draw = DrawPtr.null ∧
  ((initState env).double_buffered = true →
    fbdev_exit (initState env) =
      { initState env with gr_draw := DrawPtr.null }) ∧
  ((initState env).double_buffered = false →
    (fbdev_exit (initState env)).allocated = [] ∧
    (fbdev_exit (initState env)).mem = (initState env).mem ∧
    (fbdev_exit (initState env)).gr_framebuffer =
      (initState env).gr_framebuffer ∧
    (fbdev_exit (initState env)).vi = (initState env).vi ∧
    (fbdev_exit (initState env)).dev_vi = (initState env).dev_vi ∧
    (fbdev_exit (initState env)).power_blanked =
      (initState env).power_blanked ∧
    (fbdev_exit (initState env)).errlog = (initState env).errlog)

/-- C9: teardown releases the shadow buffer's backing storage and its
descriptor under the software strategy, changes nothing but the draw
reference under the hardware strategy, and in both cases leaves the draw
reference null. -/
theorem C9_teardown (env : InitEnv)
    (hok : initOk (fbdev_init env) = true) :
    c9Spec env := by
  have hreg := initOk_reg env hok
  unfold c9Spec
  refine ⟨exit_gr_draw _, fun hdb => exit_hw _ hdb, ?_⟩
  intro hdb
  by_cases hde : (env.vi0.yres * env.fi.line_length * 2) % 2 ^ 32 ≤
      env.fi.smem_len
  · exfalso
    have hstate : initState env =
        fbdev_blank (fbdev_blank
          (set_displayed_framebuffer (hwState0 env) 0 env.putRet)
          true env.blankOnRet) false env.blankOffRet := by
      unfold initState
      rw [fbdev_init_hw_eq env hreg hde]
      rfl
    rw [hstate] at hdb
    simp [hwState0] at hdb
  · by_cases halloc : env.allocOk = true
    · have hstate : initState env =
          fbdev_blank (fbdev_blank
            (set_displayed_framebuffer (swState0 env) 0 env.putRet)
            true env.blankOnRet) false env.blankOffRet := by
        unfold initState
        rw [fbdev_init_sw_eq env hreg hde halloc]
        rfl
      rw [hstate]
      rw [exit_sw_heap _ env.allocBase (swSurf env)
        (by simp [swState0]) (by simp [swState0])]
      refine ⟨?_, rfl, rfl, rfl, rfl, rfl, rfl⟩
      simp [kfreeBlk, swState0, swSurf, initFb0, sizeofGRSurface]
    · exfalso
      have halloc' : env.allocOk = false := by
        revert halloc; cases env.allocOk <;> simp
      rw [fbdev_init_swfail_eq env hreg hde halloc'] at hok
      simp [initOk] at hok

/-- The conclusion of claim C10: under the software strategy, flip leaves
the shadow buffer's own bytes unchanged in both copy modes. -/
def c10Spec (bgra : Bool) (s : FbdevState) (dr : GRSurface) (r : Int) :
    Prop :=
  ∀ o, o < dr.height * dr.row_bytes →
    (fbdev_flip bgra s r).1.mem (dr.data + o) = s.mem (dr.data + o)

/-- C10: under the software strategy, flip leaves the shadow draw buffer's
contents unchanged in both copy modes: only device memory is written
(4-byte pixel rows and the disjointness init establishes assumed). -/
theorem C10_shadow_preserved (bgra : Bool) (s : FbdevState)
    (dr : GRSurface) (a : Nat) (r : Int)
    (hdb : s.double_buffered = false)
    (hdraw : s.gr_draw = DrawPtr.heap a dr)
    (hrow : dr.row_bytes % 4 = 0)
    (hdisj : s.gr_framebuffer.1.data + dr.height * dr.row_bytes ≤ dr.data ∨
      dr.data + dr.height * dr.row_bytes ≤ s.gr_framebuffer.1.data) :
    c10Spec bgra s dr r := by
  have hf := flip_sw bgra s r a dr hdb hdraw
  obtain ⟨c, hc⟩ : 4 ∣ dr.height * dr.row_bytes :=
    Dvd.dvd.mul_left (Nat.dvd_of_mod_eq_zero hrow) dr.height
  intro o ho
  rw [hf]
  cases bgra
  · show memcpyBytes s.mem s.gr_framebuffer.1.data dr.data
      (dr.height * dr.row_bytes) (dr.data + o) = _
    apply memcpyBytes_out
    rcases hdisj with h | h <;> omega
  · show swapCopyIter s.gr_framebuffer.1.data dr.data s.mem
      ((dr.height * dr.row_bytes + 3) / 4) (dr.data + o) = _
    apply swapCopyIter_frame
    intro j hj
    rcases hdisj with h | h <;> omega

/-- A concrete hardware-path environment: a 2 x 2 display with row stride 8
and 64 bytes of video memory, so two 16-byte buffers fit. -/
def envHW : InitEnv :=
  { numRegisteredFb := 1
    fi := { line_length := 8, smem_len := 64, mmio_start := 100 }
    vi0 := { xres := 2, yres := 2, yres_virtual := 2, yoffset := 0,
             bits_per_pixel := 32 }
    mem0 := fun _ => 7
    power0 := false
    allocBase := 1000
    allocOk := true
    putRet := 0
    blankOnRet := 0
    blankOffRet := 0 }

/-- The same geometry with only 16 bytes of video memory, forcing the
software shadow-buffer strategy. -/
def envSW : InitEnv :=
  { envHW with fi := { line_length := 8, smem_len := 16, mmio_start := 100 } }

/-- The software environment with a failing shadow-buffer allocation. -/
def envSWFail : InitEnv :=
  { envSW with allocOk := false }

/-- Witness for C1 on the concrete hardware environment. -/
theorem C1_double_buffer_selection_witness :
    envHW.numRegisteredFb ≠ 0 ∧
    envHW.vi0.yres * envHW.fi.line_length * 2 < 2 ^ 32 ∧
    initOk (fbdev_init envHW) = true ∧
    c1Spec envHW :=
  ⟨by decide, by decide, by rfl,
   C1_double_buffer_selection envHW (by decide) (by decide) (by rfl)⟩

/-- Witness for C3 on the concrete software environment. -/
theorem C3_zero_initialised_witness :
    initOk (fbdev_init envSW) = true ∧ c3Spec envSW :=
  ⟨by rfl, C3_zero_initialised envSW (by rfl)⟩

/-- Witness for C4 on the concrete failing-allocation environment. -/
theorem C4_alloc_failure_witness :
    envSWFail.numRegisteredFb ≠ 0 ∧
    envSWFail.vi0.yres * envSWFail.fi.line_length * 2 < 2 ^ 32 ∧
    envSWFail.fi.smem_len <
      envSWFail.vi0.yres * envSWFail.fi.line_length * 2 ∧
    envSWFail.allocOk = false ∧
    fbdev_init envSWFail = Except.error InitError.allocFailed :=
  ⟨by decide, by decide, by decide, by rfl,
   C4_alloc_failure envSWFail (by decide) (by decide) (by decide) (by rfl)⟩

/-- Witness for C7 on the concrete software environment. -/
theorem C7_software_buffer_witness :
    envSW.numRegisteredFb ≠ 0 ∧
    envSW.vi0.yres * envSW.fi.line_length * 2 < 2 ^ 32 ∧
    envSW.fi.smem_len < envSW.vi0.yres * envSW.fi.line_length * 2 ∧
    envSW.allocOk = true ∧
    envSW.fi.mmio_start + envSW.fi.smem_len ≤ envSW.allocBase ∧
    c7Spec envSW :=
  ⟨by decide, by decide, by decide, by rfl, by decide,
   C7_software_buffer envSW (by decide) (by decide) (by decide) (by rfl)
     (by decide)⟩

/-- A concrete 2 x 2, stride-8 primary buffer at device address 100. -/
def surfHW0 : GRSurface :=
  { width := 2, height := 2, row_bytes := 8, pixel_bytes := 4, data := 100 }

/-- The matching second hardware buffer, 16 bytes further. -/
def surfHW1 : GRSurface := { surfHW0 with data := 116 }

/-- A concrete variable screen info for the states below. -/
def viC : FbVarScreeninfo :=
  { xres := 2, yres := 2, yres_virtual := 4, yoffset := 0,
    bits_per_pixel := 32 }

/-- A concrete post-init hardware-strategy state. -/
def sHW : FbdevState :=
  { gr_framebuffer := (surfHW0, surfHW1)
    double_buffered := true
    gr_draw := DrawPtr.fb 1
    displayed_buffer := 0
    vi := viC
    dev_vi := viC
    power_blanked := false
    mem := fun _ => 0
    allocated := []
    errlog := 0 }

/-- A concrete shadow draw buffer at heap address 1024. -/
def drShadow : GRSurface := { surfHW0 with data := 1024 }

/-- A concrete post-init software-strategy state: descriptor block at 1000,
data block at 1024, device memory far below at 100. -/
def sSW : FbdevState :=
  { gr_framebuffer := (surfHW0, zeroSurface)
    double_buffered := false
    gr_draw := DrawPtr.heap 1000 drShadow
    displayed_buffer := 0
    vi := viC
    dev_vi := viC
    power_blanked := false
    mem := fun a => a % 256
    allocated := [(1000, 24), (1024, 16)]
    errlog := 0 }

/-- Witness for C2 on the concrete hardware state. -/
theorem C2_flip_alternation_witness :
    sHW.double_buffered = true ∧ sHW.displayed_buffer ≤ 1 ∧
    c2Spec false sHW 0 0 :=
  ⟨rfl, by decide, C2_flip_alternation false sHW 0 0 rfl (by decide)⟩

/-- Witness for C5 on the concrete software state. -/
theorem C5_software_flip_direct_witness :
    sSW.double_buffered = false ∧
    sSW.gr_draw = DrawPtr.heap 1000 drShadow ∧
    c5Spec sSW drShadow 0 :=
  ⟨rfl, rfl, C5_software_flip_direct sSW drShadow 1000 0 rfl rfl⟩

/-- Witness for C6 on the concrete software state. -/
theorem C6_software_flip_bgra_witness :
    sSW.double_buffered = false ∧
    sSW.gr_draw = DrawPtr.heap 1000 drShadow ∧
    drShadow.row_bytes % 4 = 0 ∧
    (sSW.gr_framebuffer.1.data + drShadow.height * drShadow.row_bytes ≤
      drShadow.data ∨
     drShadow.data + drShadow.height * drShadow.row_bytes ≤
      sSW.gr_framebuffer.1.data) ∧
    c6Spec sSW drShadow 0 :=
  ⟨rfl, rfl, by decide, by decide,
   C6_software_flip_bgra sSW drShadow 1000 0 rfl rfl (by decide)
     (by decide)⟩

/-- Witness for C8 on the concrete hardware state with a failing command. -/
theorem C8_command_failure_nonfatal_witness :
    ((-1 : Int) < 0) ∧ sHW.double_buffered = true ∧
    c8Spec false true sHW (-1) :=
  ⟨by decide, rfl,
   C8_command_failure_nonfatal false true sHW (-1) (by decide) rfl⟩

/-- Witness for C9 on the concrete software environment. -/
theorem C9_teardown_witness :
    initOk (fbdev_init envSW) = true ∧ c9Spec envSW :=
  ⟨by rfl, C9_teardown envSW (by rfl)⟩

/-- Witness for C10 on the concrete software state in swapped mode. -/
theorem C10_shadow_preserved_witness :
    sSW.double_buffered = false ∧
    sSW.gr_draw = DrawPtr.heap 1000 drShadow ∧
    drShadow.row_bytes % 4 = 0 ∧
    (sSW.gr_framebuffer.1.data + drShadow.height * drShadow.row_bytes ≤
      drShadow.data ∨
     drShadow.data + drShadow.height * drShadow.row_bytes ≤
      sSW.gr_framebuffer.1.data) ∧
    c10Spec true sSW drShadow 0 :=
  ⟨rfl, rfl, by decide, by decide,
   C10_shadow_preserved true sSW drShadow 1000 0 rfl rfl (by decide)
     (by decide)⟩

end GraphicsFbdev
